import Mathlib

/-!
Verification of the sidereal_v3 replication core against its specification.

The Rust sources are shallowly embedded: `f32`/`f64` values become `ℚ`
(the claims under scrutiny are about branch structure and exact arithmetic
identities, not rounding), serde_json values become an inductive `Json`,
hash maps become association lists with the source's last-insert-wins
lookup, and `&mut` state becomes explicit state passing.  Each definition
carries the name of the Rust item it embeds.
-/

/-- serde_json::Value.  Objects keep insertion order as a field list. -/
inductive Json where
  | null : Json
  | bool (b : Bool) : Json
  | num (q : ℚ) : Json
  | str (s : String) : Json
  | arr (elems : List Json) : Json
  | obj (fields : List (String × Json)) : Json
deriving Repr

/-- glam::Vec3 with rational coordinates. -/
structure Vec3 where
  x : ℚ
  y : ℚ
  z : ℚ
deriving DecidableEq, Repr

instance : Sub Vec3 := ⟨fun a b => ⟨a.x - b.x, a.y - b.y, a.z - b.z⟩⟩

instance : Add Vec3 := ⟨fun a b => ⟨a.x + b.x, a.y + b.y, a.z + b.z⟩⟩

/-- Componentwise scaling, used by glam's `lerp`. -/
def Vec3.scale (v : Vec3) (t : ℚ) : Vec3 := ⟨v.x * t, v.y * t, v.z * t⟩

theorem Vec3.sub_def (a b : Vec3) : a - b = ⟨a.x - b.x, a.y - b.y, a.z - b.z⟩ := rfl

theorem Vec3.add_def (a b : Vec3) : a + b = ⟨a.x + b.x, a.y + b.y, a.z + b.z⟩ := rfl

/-- Squared euclidean norm of a vector. -/
def Vec3.len2 (v : Vec3) : ℚ := v.x * v.x + v.y * v.y + v.z * v.z

/-- The source compares `v.length() <= r`.  Square roots are irrational, so
the embedding compares squared values: for `r ≥ 0` we have
`‖v‖ ≤ r ↔ ‖v‖² ≤ r²`, and for `r < 0` the source comparison is false
because a length is nonnegative. -/
def Vec3.distLe (v : Vec3) (r : ℚ) : Bool := decide (0 ≤ r) && decide (v.len2 ≤ r * r)

/-- glam `Vec3::lerp`: `a + (b - a) * t`. -/
def Vec3.lerp (a b : Vec3) (t : ℚ) : Vec3 := a + (b - a).scale t

/-- sidereal-net `WorldComponentDelta`. -/
structure WorldComponentDelta where
  component_id : String
  component_kind : String
  properties : Json
deriving Repr

/-- sidereal-net `WorldDeltaEntity`. -/
structure WorldDeltaEntity where
  entity_id : String
  labels : List String
  properties : Json
  components : List WorldComponentDelta
  removed : Bool
deriving Repr

/-- sidereal-net `WorldStateDelta`. -/
structure WorldStateDelta where
  updates : List WorldDeltaEntity
deriving Repr

/-- serde_json `Value::get` on an object (first binding of the key; the
source's maps hold at most one binding per key). -/
def Json.getField : Json → String → Option Json
  | .obj fields, key => (fields.find? (fun p => p.1 == key)).map (fun p => p.2)
  | _, _ => none

/-- serde_json `Value::as_f64` (numbers only). -/
def Json.asF64 : Json → Option ℚ
  | .num q => some q
  | _ => none

/-- serde_json `Value::as_str`. -/
def Json.asStr : Json → Option String
  | .str s => some s
  | _ => none

/-- Keys of an object value; non-objects have no keys. -/
def Json.objKeys : Json → List String
  | .obj fields => fields.map (fun p => p.1)
  | _ => []

/-- Holds when `as_object` succeeds and the object is nonempty (the push
guard at the end of `filter_world_for_client`). -/
def Json.objNonempty : Json → Bool
  | .obj fields => !fields.isEmpty
  | _ => false

/-- visibility.rs `DEFAULT_VIEW_RANGE_M`. -/
def DEFAULT_VIEW_RANGE_M : ℚ := 300

/-- visibility.rs `VisibilityScope`. -/
inductive VisibilityScope where
  | Authenticated : VisibilityScope
  | None : VisibilityScope
deriving DecidableEq, Repr

/-- visibility.rs `VisibilityContext`. -/
structure VisibilityContext where
  scope : VisibilityScope
  player_entity_id : Option String
  observer_position : Option Vec3
  view_range_m : ℚ
deriving Repr

/-- visibility.rs `VisibilityContext::authenticated`. -/
def VisibilityContext.authenticated (player_entity_id : String)
    (observer_position : Option Vec3) : VisibilityContext :=
  { scope := .Authenticated
    player_entity_id := some player_entity_id
    observer_position := observer_position
    view_range_m := DEFAULT_VIEW_RANGE_M }

/-- visibility.rs `VisibilityContext::none`. -/
def VisibilityContext.noneCtx : VisibilityContext :=
  { scope := .None
    player_entity_id := none
    observer_position := none
    view_range_m := 0 }

/-- visibility.rs `ALWAYS_VISIBLE_PROPERTIES`. -/
def ALWAYS_VISIBLE_PROPERTIES : List String :=
  ["entity_id", "position_m", "velocity_mps", "heading_rad", "display_name",
   "ship_tag", "module_tag", "mounted_on_entity_id", "parent_entity_id",
   "size_m", "collision_aabb_m", "mass_kg", "asset_id",
   "starfield_shader_asset_id"]

/-- visibility.rs `is_property_always_visible`. -/
def is_property_always_visible (property_name : String) : Bool :=
  ALWAYS_VISIBLE_PROPERTIES.contains property_name

/-- visibility.rs `extract_position`: read `position_m` as a 3-element
numeric array. -/
def extract_position (properties : Json) : Option Vec3 :=
  match properties.getField "position_m" with
  | some (.arr [a, b, c]) => do
      let x ← a.asF64
      let y ← b.asF64
      let z ← c.asF64
      pure ⟨x, y, z⟩
  | _ => none

/-- Inner loop of visibility.rs `owner_id_from_component_properties`: scan
object values for a string, or an object whose key "0" holds a string. -/
def owner_id_from_values : List (String × Json) → Option String
  | [] => none
  | (_, v) :: rest =>
    match v.asStr with
    | some raw => some raw
    | none =>
      match v with
      | .obj inner =>
        match (Json.obj inner).getField "0" with
        | some (.str raw) => some raw
        | _ => owner_id_from_values rest
      | _ => owner_id_from_values rest

/-- visibility.rs `owner_id_from_component_properties`. -/
def owner_id_from_component_properties : Json → Option String
  | .str raw => some raw
  | .obj fields => owner_id_from_values fields
  | _ => none

/-- visibility.rs `entity_is_owned_by`. -/
def entity_is_owned_by (update : WorldDeltaEntity) (player_entity_id : String) : Bool :=
  update.components.any (fun comp =>
    comp.component_kind == "owner_id" &&
      ((owner_id_from_component_properties comp.properties).map
        (fun owner_id => owner_id == player_entity_id)).getD false)

/-- visibility.rs `scanner_extension_m`. -/
def scanner_extension_m (update : WorldDeltaEntity) : ℚ :=
  ((update.properties.getField "scanner_range_m").bind Json.asF64).getD 0

/-- The `ownership` HashMap of `filter_world_for_client`, built by
collecting `(entity_id, entity_is_owned_by ..)` over all updates: a later
entry with the same id overwrites an earlier one, hence the reversed
search; a missing id yields the loop's `unwrap_or(false)`. -/
def ownership_lookup (updates : List WorldDeltaEntity) (player_entity_id : String)
    (entity_id : String) : Bool :=
  match updates.reverse.find? (fun u => u.entity_id == entity_id) with
  | some u => entity_is_owned_by u player_entity_id
  | none => false

/-- The `authorization_anchors` accumulation of `filter_world_for_client`:
one `(position, range)` pair per owned update with a readable position. -/
def authorization_anchors (world : WorldStateDelta) (player_entity_id : String) :
    List (Vec3 × ℚ) :=
  world.updates.filterMap (fun update =>
    if ownership_lookup world.updates player_entity_id update.entity_id then
      match extract_position update.properties with
      | some pos =>
        some (pos, max (DEFAULT_VIEW_RANGE_M + scanner_extension_m update) DEFAULT_VIEW_RANGE_M)
      | none => none
    else none)

/-- Loop body of `filter_world_for_client` (visibility.rs lines 193-243):
for one update, the zero or one updates pushed for it. -/
def filter_update_for_client (updates : List WorldDeltaEntity)
    (anchors : List (Vec3 × ℚ)) (player_entity_id : String)
    (ctx : VisibilityContext) (update : WorldDeltaEntity) : List WorldDeltaEntity :=
  if update.removed then [update]
  else
    let is_owned := ownership_lookup updates player_entity_id update.entity_id
    let entity_pos := extract_position update.properties
    let authorized :=
      if is_owned then true
      else
        match entity_pos with
        | some pos => anchors.any (fun a => (pos - a.1).distLe a.2)
        | none => false
    if !authorized then []
    else
      let in_delivery_focus :=
        match ctx.observer_position, entity_pos with
        | some obs_pos, some pos => (pos - obs_pos).distLe ctx.view_range_m
        | _, _ => is_owned
      if !in_delivery_focus then []
      else if is_owned then [update]
      else
        let redacted : WorldDeltaEntity :=
          { update with
            properties :=
              match update.properties with
              | .obj fields => .obj (fields.filter (fun p => is_property_always_visible p.1))
              | j => j
            components := [] }
        if redacted.properties.objNonempty then [redacted] else []

/-- visibility.rs `filter_world_for_client`. -/
def filter_world_for_client (world : WorldStateDelta) (player_entity_id : String)
    (ctx : VisibilityContext) : WorldStateDelta :=
  let anchors := authorization_anchors world player_entity_id
  { updates :=
      world.updates.flatMap
        (filter_update_for_client world.updates anchors player_entity_id ctx) }

/-- visibility.rs `apply_visibility_filter`. -/
def apply_visibility_filter (world : WorldStateDelta) (ctx : VisibilityContext) :
    Option WorldStateDelta :=
  match ctx.scope with
  | .None => none
  | .Authenticated =>
    match ctx.player_entity_id with
    | none => none
    | some player_id => some (filter_world_for_client world player_id ctx)

/-- visibility.rs `ClientVisibilityRegistry` as an association list from
client entity (bevy `Entity`, modelled as `ℕ`) to player id; HashMap
lookup with last-insert-wins. -/
def registry_get_player_id (registry : List (ℕ × String)) (client_entity : ℕ) :
    Option String :=
  (registry.reverse.find? (fun p => p.1 == client_entity)).map (fun p => p.2)

/-- visibility.rs `ClientControlledEntityPositionMap::get_position`. -/
def positions_get (positions : List (String × Vec3)) (player_entity_id : String) :
    Option Vec3 :=
  (positions.reverse.find? (fun p => p.1 == player_entity_id)).map (fun p => p.2)

/-- visibility.rs `visibility_context_for_client`.  The
`REPLICATION_VISIBILITY_MODE=none` environment probe is passed in as the
boolean `override_none`. -/
def visibility_context_for_client (override_none : Bool) (client_entity : ℕ)
    (registry : List (ℕ × String)) (positions : List (String × Vec3)) :
    VisibilityContext :=
  if override_none then VisibilityContext.noneCtx
  else
    match registry_get_player_id registry client_entity with
    | some player_id =>
      VisibilityContext.authenticated player_id (positions_get positions player_id)
    | none => VisibilityContext.noneCtx

/-- The synthetic leave update pushed by `broadcast_replication_state`
(replication main.rs lines 2209-2215): empty labels, `json!({\x7b\x7d})`
properties, no components, `removed = true`. -/
def synthetic_removed_update (entity_id : String) : WorldDeltaEntity :=
  { entity_id := entity_id
    labels := []
    properties := .obj []
    components := []
    removed := true }

/-- Per-session body of replication main.rs `broadcast_replication_state`
(lines 2196-2220): compute `current_visible` from the filtered delta,
append one synthetic `removed=true` update per id in
`previous_visible \ current_visible`, and return the delivered frame
together with the replacement history.  The two `HashSet<String>` values
are modelled as duplicate-free lists: `dedup`-ing the collected ids models
the set collect, and filtering `previous_visible` by non-membership models
`HashSet::difference`. -/
def broadcast_frame_for_session (filtered_world : WorldStateDelta)
    (previous_visible : List String) : WorldStateDelta × List String :=
  let current_visible :=
    ((filtered_world.updates.filter (fun update => !update.removed)).map
      (fun update => update.entity_id)).dedup
  let disappeared := previous_visible.filter (fun id => !current_visible.contains id)
  ({ updates := filtered_world.updates ++ disappeared.map synthetic_removed_update },
   current_visible)

/-- sidereal-persistence `PersistenceError`, carried opaquely. -/
inductive PersistenceError where
  | Storage (message : String) : PersistenceError
deriving DecidableEq, Repr

/-- state.rs `flush_pending_updates`.  `GraphPersistence::persist_world_delta`
is database I/O, abstracted as the `persist` argument; the `&mut HashMap`
of pending updates becomes explicit state passing, returning the map left
behind along with the result.  `drain()` empties the map before `persist`
runs, so both the `Ok` and the `Err` arm leave the empty map. -/
def flush_pending_updates
    (persist : List WorldDeltaEntity → ℕ → Except PersistenceError Unit)
    (pending_updates : List (String × WorldDeltaEntity)) (tick : ℕ) :
    Except PersistenceError ℕ × List (String × WorldDeltaEntity) :=
  if pending_updates.isEmpty then (.ok 0, pending_updates)
  else
    let batch := pending_updates.map (fun p => p.2)
    let count := batch.length
    match persist batch tick with
    | .error err => (.error err, [])
    | .ok _ => (.ok count, [])

/-- bootstrap.rs `BootstrapError`. -/
inductive BootstrapError where
  | Validation (message : String) : BootstrapError
  | Serialization (message : String) : BootstrapError
  | Storage (message : String) : BootstrapError
deriving DecidableEq, Repr

/-- bootstrap.rs `BootstrapWireMessage` (already JSON-decoded; the serde
byte decode of `handle_payload` is outside the embedding, so a payload is
modelled by the wire message it decodes to). -/
structure BootstrapWireMessage where
  kind : String
  account_id : String
  player_entity_id : String
deriving DecidableEq, Repr

/-- bootstrap.rs `BootstrapCommand`; `uuid::Uuid` is modelled by its
canonical string rendering. -/
structure BootstrapCommand where
  account_id : String
  player_entity_id : String
deriving DecidableEq, Repr

/-- bootstrap.rs `BootstrapHandleResult`. -/
structure BootstrapHandleResult where
  account_id : String
  player_entity_id : String
  applied : Bool
deriving DecidableEq, Repr

/-- Lowercase hexadecimal digit. -/
def is_lower_hex_digit (c : Char) : Bool :=
  (decide ('0' ≤ c) && decide (c ≤ '9')) || (decide ('a' ≤ c) && decide (c ≤ 'f'))

/-- Canonical hyphenated lowercase UUID shape (8-4-4-4-12). -/
def uuid_is_canonical (s : String) : Bool :=
  s.toList.length == 36 &&
    s.toList.enum.all (fun p =>
      if p.1 == 8 || p.1 == 13 || p.1 == 18 || p.1 == 23 then p.2 == '-'
      else is_lower_hex_digit p.2)

/-- Model of `uuid::Uuid::parse_str` followed by `Display`, on its
canonical sublanguage: a canonical lowercase UUID string parses to itself,
anything else is rejected.  (The uuid crate also canonicalizes some other
shapes; the claims depend only on the parse being a fixed function.) -/
def uuid_parse (s : String) : Option String :=
  if uuid_is_canonical s then some s else none

/-- bootstrap.rs `TryFrom<BootstrapWireMessage> for BootstrapCommand`. -/
def bootstrap_command_try_from (value : BootstrapWireMessage) :
    Except BootstrapError BootstrapCommand :=
  if value.kind != "bootstrap_player" then
    .error (.Validation ("unknown bootstrap kind: " ++ value.kind))
  else
    match uuid_parse value.account_id with
    | none => .error (.Validation "invalid account_id uuid")
    | some account_id =>
      if value.player_entity_id != "player:" ++ account_id then
        .error (.Validation "player_entity_id must match player:<account_uuid>")
      else
        .ok { account_id := account_id, player_entity_id := value.player_entity_id }

/-- bootstrap.rs `InMemoryBootstrapStore`, which mirrors the Postgres
store's `INSERT .. ON CONFLICT (account_id) DO NOTHING` dedup semantics:
`applied_accounts` is the dedup table (a `HashSet`, modelled as a
duplicate-free list), `events` the event table. -/
structure InMemoryBootstrapStore where
  applied_accounts : List String
  events : List BootstrapHandleResult
deriving DecidableEq, Repr

/-- The fresh store (`InMemoryBootstrapStore::default`). -/
def InMemoryBootstrapStore.empty : InMemoryBootstrapStore :=
  { applied_accounts := [], events := [] }

/-- bootstrap.rs `InMemoryBootstrapStore::apply_bootstrap_if_absent`:
`HashSet::insert` returns whether the account was newly inserted. -/
def apply_bootstrap_if_absent (store : InMemoryBootstrapStore)
    (command : BootstrapCommand) : Bool × InMemoryBootstrapStore :=
  let applied := !store.applied_accounts.contains command.account_id
  let accounts :=
    if applied then command.account_id :: store.applied_accounts
    else store.applied_accounts
  (applied,
   { applied_accounts := accounts
     events := store.events ++
       [{ account_id := command.account_id
          player_entity_id := command.player_entity_id
          applied := applied }] })

/-- bootstrap.rs `BootstrapProcessor::handle_payload` over the in-memory
store, from the decoded wire message on: validate, then apply-if-absent. -/
def handle_payload (store : InMemoryBootstrapStore) (message : BootstrapWireMessage) :
    Except BootstrapError BootstrapHandleResult × InMemoryBootstrapStore :=
  match bootstrap_command_try_from message with
  | .error err => (.error err, store)
  | .ok command =>
    let (applied, store) := apply_bootstrap_if_absent store command
    (.ok { account_id := command.account_id
           player_entity_id := command.player_entity_id
           applied := applied },
     store)

/-- A sequence of `handle_payload` calls (wire retries), returning the
results in order together with the final store. -/
def handle_payload_all (store : InMemoryBootstrapStore) :
    List BootstrapWireMessage →
    List (Except BootstrapError BootstrapHandleResult) × InMemoryBootstrapStore
  | [] => ([], store)
  | message :: rest =>
    let (result, store) := handle_payload store message
    let (results, store) := handle_payload_all store rest
    (result :: results, store)

/-- sidereal-client main.rs `HARD_SNAP_THRESHOLD_M`. -/
def HARD_SNAP_THRESHOLD_M : ℚ := 10

/-- sidereal-client main.rs `SMOOTH_CORRECTION_RATE`. -/
def SMOOTH_CORRECTION_RATE : ℚ := 8

/-- The client health HUD state mutated by reconciliation. -/
structure HealthState where
  current : ℚ
  maximum : ℚ
deriving DecidableEq, Repr

/-- Reconciliation step for the controlled entity (sidereal-client main.rs
lines 1437-1466).  Rotation lives in an arbitrary type `R` with glam's
`Quat::angle_between` and `Quat::slerp` supplied as functions (they are
trigonometric library code); `server_rot` stands for
`Quat::from_rotation_z(-heading)`.  Position-error comparisons are made on
squared lengths, which agrees with the source's `length()` comparisons
because both thresholds are nonnegative. -/
def reconcile_controlled_entity {R : Type}
    (angle_between : R → R → ℚ) (slerp : R → R → ℚ → R)
    (pos vel : Vec3) (rot : R) (hp : HealthState)
    (server_pos server_vel : Option Vec3) (server_rot : R)
    (health max_health : Option ℚ) (dt : ℚ) :
    Vec3 × Vec3 × R × HealthState :=
  let pos1 :=
    match server_pos with
    | some sp =>
      let error2 := (sp - pos).len2
      if error2 > HARD_SNAP_THRESHOLD_M * HARD_SNAP_THRESHOLD_M then sp
      else if error2 > (1/100) * (1/100) then
        pos.lerp sp (min (SMOOTH_CORRECTION_RATE * dt) 1)
      else pos
    | none => pos
  let vel1 :=
    match server_vel with
    | some sv => vel.lerp sv (min (SMOOTH_CORRECTION_RATE * dt) 1)
    | none => vel
  let rot1 :=
    if angle_between rot server_rot > 1/100 then
      slerp rot server_rot (min (SMOOTH_CORRECTION_RATE * dt) 1)
    else rot
  let hp1 : HealthState :=
    { current := health.getD hp.current
      maximum := max_health.getD hp.maximum }
  (pos1, vel1, rot1, hp1)

/-- sidereal-game generated `InventoryEntry`. -/
structure InventoryEntry where
  item_entity_id : ℕ
  quantity : ℕ
  unit_mass_kg : ℚ
deriving DecidableEq, Repr

/-- sidereal-game generated `Inventory`. -/
structure Inventory where
  entries : List InventoryEntry
deriving DecidableEq, Repr

/-- mass.rs `inventory_mass_kg`. -/
def inventory_mass_kg (inventory : Option Inventory) : ℚ :=
  match inventory with
  | some inv =>
    (inv.entries.map (fun entry => max entry.unit_mass_kg 0 * (entry.quantity : ℚ))).sum
  | none => 0

/-- The shared stack traversal of mass.rs `module_tree_mass` and
`child_inventory_tree_mass`: pop a key, add its mass, push its children.
The Rust loop terminates only on acyclic parent graphs; `fuel` bounds the
number of pops, and any fuel at least the number of reachable nodes yields
the full traversal.  (Vec pops from the back and our list pops from the
front; the traversal order differs, the summed multiset of nodes does
not.) -/
def tree_mass_loop {K : Type} (mass_of : K → ℚ) (children_of : K → List K) :
    ℕ → List K → ℚ
  | 0, _ => 0
  | _ + 1, [] => 0
  | fuel + 1, key :: stack =>
    mass_of key + tree_mass_loop mass_of children_of fuel (children_of key ++ stack)

/-- mass.rs `module_tree_mass` (UUIDs modelled as `ℕ`). -/
def module_tree_mass (root_guid : ℕ) (module_mass_by_guid : ℕ → ℚ)
    (children_by_parent : ℕ → List ℕ) (fuel : ℕ) : ℚ :=
  tree_mass_loop module_mass_by_guid children_by_parent fuel (children_by_parent root_guid)

/-- mass.rs `child_inventory_tree_mass` (bevy `Entity` modelled as `ℕ`). -/
def child_inventory_tree_mass (root_entity : ℕ) (inventory_mass_by_entity : ℕ → ℚ)
    (children_by_parent_entity : ℕ → List ℕ) (fuel : ℕ) : ℚ :=
  tree_mass_loop inventory_mass_by_entity children_by_parent_entity fuel
    (children_by_parent_entity root_entity)

/-- One row of the `modules` query of `recompute_total_mass`:
`(&EntityGuid, &MountedOn, Option<&MassKg>, Option<&Inventory>)`. -/
structure ModuleRow where
  guid : ℕ
  parent_guid : ℕ
  mass : Option ℚ
  inventory : Option Inventory
deriving DecidableEq, Repr

/-- The `module_mass_by_guid` map of `recompute_total_mass`: per module,
its `MassKg` (default 0) plus its own inventory mass; a later row with the
same guid overwrites an earlier one; `.get(..).copied().unwrap_or(0.0)`
yields 0 for absent guids. -/
def module_mass_by_guid (modules : List ModuleRow) (guid : ℕ) : ℚ :=
  match modules.reverse.find? (fun row => row.guid == guid) with
  | some row => row.mass.getD 0 + inventory_mass_kg row.inventory
  | none => 0

/-- The `module_children_by_parent_guid` map of `recompute_total_mass`:
guids pushed in query order under their `MountedOn.parent_entity_id`. -/
def module_children_by_parent_guid (modules : List ModuleRow) (parent : ℕ) : List ℕ :=
  (modules.filter (fun row => row.parent_guid == parent)).map (fun row => row.guid)

/-- The `inventory_mass_by_entity` map of `recompute_total_mass`, from the
`inventories` query rows `(Entity, Option<&Inventory>)`. -/
def inventory_mass_by_entity (inventories : List (ℕ × Option Inventory)) (entity : ℕ) : ℚ :=
  match inventories.reverse.find? (fun row => row.1 == entity) with
  | some row => inventory_mass_kg row.2
  | none => 0

/-- The `children_by_parent_entity` map of `recompute_total_mass`, from
the `child_of` query rows `(child, parent)`. -/
def children_by_parent_entity (child_of : List (ℕ × ℕ)) (parent : ℕ) : List ℕ :=
  (child_of.filter (fun row => row.2 == parent)).map (fun row => row.1)

/-- One root row of `recompute_total_mass` (a `Without<MountedOn>` entity),
with its current `TotalMassKg` and whether `MassDirty` is present. -/
structure MassRoot where
  entity : ℕ
  guid : ℕ
  mass : Option ℚ
  base_mass : Option ℚ
  inventory : Option Inventory
  cargo_mass : ℚ
  module_mass : ℚ
  total_mass : ℚ
  mass_dirty : Bool
deriving DecidableEq, Repr

/-- Per-root body of mass.rs `recompute_total_mass` (lines 108-149):
returns the root with `CargoMassKg`, `ModuleMassKg` and `TotalMassKg`
written back (unchanged when the dirty check skips the root). -/
def recompute_total_mass_for_root (root : MassRoot)
    (inventories : List (ℕ × Option Inventory)) (child_of : List (ℕ × ℕ))
    (modules : List ModuleRow) (fuel : ℕ) : MassRoot :=
  if !root.mass_dirty && root.total_mass > 0 then root
  else
    let base := (root.base_mass.or root.mass).getD 0
    let own_inventory := inventory_mass_kg root.inventory
    let child_inventory :=
      child_inventory_tree_mass root.entity (inventory_mass_by_entity inventories)
        (children_by_parent_entity child_of) fuel
    let cargo_total := own_inventory + child_inventory
    let module_total :=
      module_tree_mass root.guid (module_mass_by_guid modules)
        (module_children_by_parent_guid modules) fuel
    let computed_total := max (base + cargo_total + module_total) 1
    { root with
      cargo_mass := cargo_total
      module_mass := module_total
      total_mass := computed_total }

/-- sidereal-game generated `ScannerComponent` (`level : u8`). -/
structure ScannerComponent where
  base_range_m : ℚ
  level : ℕ
deriving DecidableEq, Repr

/-- sidereal-game generated `ScannerRangeBuff`. -/
structure ScannerRangeBuff where
  additive_m : ℚ
  multiplier : ℚ
deriving DecidableEq, Repr

/-- replication main.rs `apply_range_buff`. -/
def apply_range_buff (base_range_m : ℚ) (buff : ScannerRangeBuff) : ℚ :=
  let multiplier := if buff.multiplier ≤ 0 then 1 else buff.multiplier
  max (base_range_m + buff.additive_m) 0 * multiplier

/-- replication main.rs `compute_scanner_contribution`. -/
def compute_scanner_contribution (scanner : ScannerComponent)
    (buff : Option ScannerRangeBuff) : ℚ :=
  let level_multiplier : ℚ := if scanner.level == 0 then 1 else scanner.level
  let base := max scanner.base_range_m 0 * level_multiplier
  match buff with
  | some b => apply_range_buff base b
  | none => base

/-- One row of the `scanner_modules` query of
`compute_controlled_entity_scanner_ranges`:
`(&MountedOn, &ScannerComponent, Option<&ScannerRangeBuff>)`. -/
structure ScannerModuleRow where
  parent_guid : ℕ
  scanner : ScannerComponent
  buff : Option ScannerRangeBuff
deriving DecidableEq, Repr

/-- Per-controlled-entity body of replication main.rs
`compute_controlled_entity_scanner_ranges` (lines 1377-1393): the written
`ScannerRangeM` value. -/
def compute_controlled_entity_scanner_range (entity_guid : ℕ)
    (own_scanner : Option ScannerComponent) (own_buff : Option ScannerRangeBuff)
    (scanner_modules : List ScannerModuleRow) : ℚ :=
  let total0 := DEFAULT_VIEW_RANGE_M
  let total1 :=
    match own_scanner with
    | some scanner => total0 + compute_scanner_contribution scanner own_buff
    | none =>
      match own_buff with
      | some buff => apply_range_buff total0 buff
      | none => total0
  let total2 := total1 +
    ((scanner_modules.filter (fun row => row.parent_guid == entity_guid)).map
      (fun row => compute_scanner_contribution row.scanner row.buff)).sum
  max total2 DEFAULT_VIEW_RANGE_M

/-- prediction.rs `EntitySnapshot`; the quaternion is carried opaquely as
four rationals. -/
structure EntitySnapshot where
  server_time : ℚ
  position_m : Vec3
  rotation : ℚ × ℚ × ℚ × ℚ
deriving DecidableEq, Repr

/-- The bracketing scan of `SnapshotBuffer::interpolate_at` (lines
266-276): `before` is overwritten by each snapshot with
`server_time ≤ render_time`, `after` is the first later snapshot, at which
the loop breaks. -/
def find_bracketing (render_time : ℚ) :
    List EntitySnapshot → Option EntitySnapshot × Option EntitySnapshot
  | [] => (none, none)
  | snap :: rest =>
    if snap.server_time ≤ render_time then
      let (before, after) := find_bracketing render_time rest
      (some (before.getD snap), after)
    else (none, some snap)

/-- prediction.rs `MAX_EXTRAPOLATION_S` (50 ms). -/
def MAX_EXTRAPOLATION_S : ℚ := 1/20

/-- prediction.rs `SnapshotBuffer::interpolate_at` (lines 260-309); the
buffer is its snapshot deque, oldest first. -/
def interpolate_at (snapshots : List EntitySnapshot) (render_time : ℚ) :
    Option EntitySnapshot :=
  if snapshots.length < 2 then none
  else
    match find_bracketing render_time snapshots with
    | (some b, some a) =>
      let total_time := a.server_time - b.server_time
      if total_time ≤ 0 then some b
      else
        let t := min (max ((render_time - b.server_time) / total_time) 0) 1
        some { server_time := render_time
               position_m := b.position_m + (a.position_m - b.position_m).scale t
               rotation := b.rotation }
    | (some b, none) =>
      if render_time - b.server_time < MAX_EXTRAPOLATION_S then some b else none
    | _ => none

/-- A removed update used as a concrete probe input. -/
def sample_removed_update : WorldDeltaEntity :=
  { entity_id := "ship:gone", labels := [], properties := .obj [],
    components := [], removed := true }

/-- A pending non-removed update used as a concrete probe input. -/
def sample_pending_update : WorldDeltaEntity :=
  { entity_id := "ship:1", labels := ["Entity"], properties := .obj [],
    components := [], removed := false }

/-- C1: a session whose visibility context is unauthenticated — no player
bound for its client entity, or the REPLICATION_VISIBILITY_MODE=none
override active — gets `none` from `apply_visibility_filter` (no delivery
payload this tick); every authenticated context carrying a bound player id
gets `some` filtered delta. -/
theorem C1_apply_visibility_filter_gating :
    (∀ (world : WorldStateDelta) (override_none : Bool) (client_entity : ℕ)
        (registry : List (ℕ × String)) (positions : List (String × Vec3)),
      override_none = true ∨ registry_get_player_id registry client_entity = none →
        apply_visibility_filter world
          (visibility_context_for_client override_none client_entity registry positions) =
          none) ∧
    (∀ (world : WorldStateDelta) (ctx : VisibilityContext) (player_id : String),
      ctx.scope = VisibilityScope.Authenticated →
      ctx.player_entity_id = some player_id →
        apply_visibility_filter world ctx =
          some (filter_world_for_client world player_id ctx)) := by
  constructor
  · intro world override_none client_entity registry positions h
    rcases h with h | h
    · subst h
      rfl
    · by_cases hov : override_none = true
      · simp [visibility_context_for_client, hov, apply_visibility_filter,
          VisibilityContext.noneCtx]
      · simp [visibility_context_for_client, hov, h, apply_visibility_filter,
          VisibilityContext.noneCtx]
  · intro world ctx player_id hs hp
    simp [apply_visibility_filter, hs, hp]

/-- Closed witness for C1 at concrete inputs. -/
theorem C1_witness :
    apply_visibility_filter ⟨[]⟩ (visibility_context_for_client true 0 [] []) = none ∧
    apply_visibility_filter ⟨[]⟩ (VisibilityContext.authenticated "player:alice" none) =
      some (filter_world_for_client ⟨[]⟩ "player:alice"
        (VisibilityContext.authenticated "player:alice" none)) :=
  ⟨C1_apply_visibility_filter_gating.1 ⟨[]⟩ true 0 [] [] (Or.inl rfl),
   C1_apply_visibility_filter_gating.2 ⟨[]⟩ _ "player:alice" rfl rfl⟩

/-- C10: every `removed=true` update in the input delta passes through the
visibility filter unchanged, before any ownership, authorization-sphere or
delivery-range check, so every authenticated session's delivery contains
it. -/
theorem C10_removed_updates_broadcast :
    ∀ (world : WorldStateDelta) (ctx : VisibilityContext) (player_id : String),
      ctx.scope = VisibilityScope.Authenticated →
      ctx.player_entity_id = some player_id →
      ∀ u ∈ world.updates, u.removed = true →
        ∃ delivered, apply_visibility_filter world ctx = some delivered ∧
          u ∈ delivered.updates := by
  intro world ctx player_id hs hp u hu hrem
  refine ⟨filter_world_for_client world player_id ctx, by simp [apply_visibility_filter, hs, hp], ?_⟩
  show u ∈ (filter_world_for_client world player_id ctx).updates
  unfold filter_world_for_client
  exact List.mem_flatMap.mpr ⟨u, hu, by simp [filter_update_for_client, hrem]⟩

/-- Closed witness for C10 at a concrete input. -/
theorem C10_witness :
    ∃ delivered,
      apply_visibility_filter ⟨[sample_removed_update]⟩
        (VisibilityContext.authenticated "player:alice" none) = some delivered ∧
      sample_removed_update ∈ delivered.updates :=
  C10_removed_updates_broadcast ⟨[sample_removed_update]⟩ _ "player:alice" rfl rfl
    sample_removed_update (by simp) rfl

/-- C4 (code bug in state.rs `flush_pending_updates`): `drain()` empties
the pending map before `persist_world_delta` runs, so when the persist
call fails the error is returned with the pending map already empty — the
batch is dropped rather than retained for the next attempt. -/
theorem C4_flush_failure_drops_batch :
    (flush_pending_updates (fun _ _ => Except.error (.Storage "db down"))
        [("ship:1", sample_pending_update)] 7).1 =
      Except.error (PersistenceError.Storage "db down") ∧
    (flush_pending_updates (fun _ _ => Except.error (.Storage "db down"))
        [("ship:1", sample_pending_update)] 7).2 = [] ∧
    ([("ship:1", sample_pending_update)] : List (String × WorldDeltaEntity)) ≠ [] :=
  ⟨rfl, rfl, by simp⟩

/-- C6: on an authoritative frame for the controlled entity with squared
position error e² = ‖server_pos − local_pos‖²: e² > 10² hard-snaps the
position, (0.01)² < e² ≤ 10² lerps it with blend min(8·dt, 1), e² ≤ (0.01)²
leaves it; velocity is lerped with the same blend; rotation is slerped with
the same blend exactly when the angle between local and server rotation
exceeds 0.01 rad; health and max health are assigned directly.  Squared
comparisons coincide with the source's comparisons on lengths since both
thresholds are nonnegative. -/
theorem C6_reconciliation_thresholds :
    ∀ {R : Type} (angle_between : R → R → ℚ) (slerp : R → R → ℚ → R)
      (pos vel : Vec3) (rot : R) (hp : HealthState) (sp sv : Vec3) (server_rot : R)
      (health max_health : Option ℚ) (dt : ℚ),
      ((sp - pos).len2 > 100 →
        (reconcile_controlled_entity angle_between slerp pos vel rot hp
            (some sp) (some sv) server_rot health max_health dt).1 = sp) ∧
      ((sp - pos).len2 ≤ 100 → (sp - pos).len2 > 1/10000 →
        (reconcile_controlled_entity angle_between slerp pos vel rot hp
            (some sp) (some sv) server_rot health max_health dt).1 =
          pos.lerp sp (min (8 * dt) 1)) ∧
      ((sp - pos).len2 ≤ 1/10000 →
        (reconcile_controlled_entity angle_between slerp pos vel rot hp
            (some sp) (some sv) server_rot health max_health dt).1 = pos) ∧
      ((reconcile_controlled_entity angle_between slerp pos vel rot hp
          (some sp) (some sv) server_rot health max_health dt).2.1 =
        vel.lerp sv (min (8 * dt) 1)) ∧
      ((reconcile_controlled_entity angle_between slerp pos vel rot hp
          (some sp) (some sv) server_rot health max_health dt).2.2.1 =
        if angle_between rot server_rot > 1/100 then
          slerp rot server_rot (min (8 * dt) 1)
        else rot) ∧
      (∀ h, health = some h →
        (reconcile_controlled_entity angle_between slerp pos vel rot hp
            (some sp) (some sv) server_rot health max_health dt).2.2.2.current = h) ∧
      (∀ m, max_health = some m →
        (reconcile_controlled_entity angle_between slerp pos vel rot hp
            (some sp) (some sv) server_rot health max_health dt).2.2.2.maximum = m) := by
  intro R angle_between slerp pos vel rot hp sp sv server_rot health max_health dt
  have h100 : HARD_SNAP_THRESHOLD_M * HARD_SNAP_THRESHOLD_M = (100 : ℚ) := by
    norm_num [HARD_SNAP_THRESHOLD_M]
  have hsm : (1/100 : ℚ) * (1/100) = 1/10000 := by norm_num
  refine ⟨?_, ?_, ?_, ?_, ?_, ?_, ?_⟩
  · intro hgt
    unfold reconcile_controlled_entity
    dsimp only
    rw [h100, if_pos hgt]
  · intro hle hgt
    unfold reconcile_controlled_entity
    dsimp only
    rw [h100, hsm, if_neg (not_lt.mpr hle), if_pos hgt]
    rfl
  · intro hle
    unfold reconcile_controlled_entity
    dsimp only
    rw [h100, hsm, if_neg, if_neg (not_lt.mpr hle)]
    exact not_lt.mpr (le_trans hle (by norm_num))
  · unfold reconcile_controlled_entity
    dsimp only
    rfl
  · unfold reconcile_controlled_entity
    dsimp only
    rfl
  · intro h hh
    unfold reconcile_controlled_entity
    dsimp only
    rw [hh]
    rfl
  · intro m hm
    unfold reconcile_controlled_entity
    dsimp only
    rw [hm]
    rfl

/-- Closed witness for C6, showing in particular the hard-snap boundary:
position error exactly 10 m gives the smooth correction, error 10.0001 m
gives the hard snap. -/
theorem C6_witness :
    (reconcile_controlled_entity (R := Unit) (fun _ _ => 0) (fun _ _ _ => ())
        ⟨0,0,0⟩ ⟨0,0,0⟩ () ⟨100, 100⟩ (some ⟨10,0,0⟩) (some ⟨1,0,0⟩) ()
        none none (1/30)).1 =
      Vec3.lerp ⟨0,0,0⟩ ⟨10,0,0⟩ (min (8 * (1/30)) 1) ∧
    (reconcile_controlled_entity (R := Unit) (fun _ _ => 0) (fun _ _ _ => ())
        ⟨0,0,0⟩ ⟨0,0,0⟩ () ⟨100, 100⟩ (some ⟨100001/10000,0,0⟩) (some ⟨1,0,0⟩) ()
        none none (1/30)).1 = ⟨100001/10000,0,0⟩ :=
  ⟨(C6_reconciliation_thresholds (fun _ _ => 0) (fun _ _ _ => ())
      ⟨0,0,0⟩ ⟨0,0,0⟩ () ⟨100, 100⟩ ⟨10,0,0⟩ ⟨1,0,0⟩ () none none (1/30)).2.1
      (by norm_num [Vec3.sub_def, Vec3.len2]) (by norm_num [Vec3.sub_def, Vec3.len2]),
   (C6_reconciliation_thresholds (fun _ _ => 0) (fun _ _ _ => ())
      ⟨0,0,0⟩ ⟨0,0,0⟩ () ⟨100, 100⟩ ⟨100001/10000,0,0⟩ ⟨1,0,0⟩ () none none (1/30)).1
      (by norm_num [Vec3.sub_def, Vec3.len2])⟩

/-- C8 counterexample: a ship whose own scanner has level 0 and base range
50 m, no buff and no modules.  The claim's formula gives
300 + 50 × 0 = 300 m, but `compute_scanner_contribution` maps level 0 to
multiplier 1, so the code computes 350 m. -/
theorem C8_counterexample :
    compute_controlled_entity_scanner_range 0 (some ⟨50, 0⟩) none [] = 350 ∧
    DEFAULT_VIEW_RANGE_M + 50 * 0 ≠ (350 : ℚ) := by
  constructor
  · norm_num [compute_controlled_entity_scanner_range, compute_scanner_contribution,
      DEFAULT_VIEW_RANGE_M]
  · norm_num [DEFAULT_VIEW_RANGE_M]

/-- C8 amended: the computed scanner range is floored at
`DEFAULT_VIEW_RANGE_M` and aggregates additively over the ship's own
scanner and every scanner module mounted on it, but each scanner
contributes `max(base_range, 0) × level` with level 0 treated as level 1,
and a buff is applied as additive, then a clamp at 0, then the
multiplier — with non-positive multipliers replaced by 1. -/
theorem C8_scanner_range_amended :
    ∀ (entity_guid : ℕ) (own_scanner : Option ScannerComponent)
      (own_buff : Option ScannerRangeBuff) (scanner_modules : List ScannerModuleRow),
      DEFAULT_VIEW_RANGE_M ≤
        compute_controlled_entity_scanner_range entity_guid own_scanner own_buff
          scanner_modules ∧
      (∀ scanner : ScannerComponent,
        compute_controlled_entity_scanner_range entity_guid (some scanner) own_buff
            scanner_modules =
          max (DEFAULT_VIEW_RANGE_M + compute_scanner_contribution scanner own_buff +
              ((scanner_modules.filter (fun row => row.parent_guid == entity_guid)).map
                (fun row => compute_scanner_contribution row.scanner row.buff)).sum)
            DEFAULT_VIEW_RANGE_M) ∧
      (∀ (scanner : ScannerComponent) (buff : Option ScannerRangeBuff),
        scanner.level = 0 →
          compute_scanner_contribution scanner buff =
            compute_scanner_contribution ⟨scanner.base_range_m, 1⟩ buff) ∧
      (∀ (base : ℚ) (buff : ScannerRangeBuff), buff.multiplier ≤ 0 →
        apply_range_buff base buff = max (base + buff.additive_m) 0) := by
  intro entity_guid own_scanner own_buff scanner_modules
  refine ⟨?_, ?_, ?_, ?_⟩
  · unfold compute_controlled_entity_scanner_range
    dsimp only
    exact le_max_right _ _
  · intro scanner
    rfl
  · intro scanner buff h0
    simp [compute_scanner_contribution, h0]
  · intro base buff hle
    simp [apply_range_buff, if_pos hle]

/-- Closed witness for C8 at concrete inputs. -/
theorem C8_witness :
    compute_scanner_contribution ⟨50, 0⟩ none = compute_scanner_contribution ⟨50, 1⟩ none ∧
    apply_range_buff 300 ⟨25, -2⟩ = max ((300 : ℚ) + 25) 0 ∧
    DEFAULT_VIEW_RANGE_M ≤ compute_controlled_entity_scanner_range 0 none none [] :=
  ⟨(C8_scanner_range_amended 0 none none []).2.2.1 ⟨50, 0⟩ none rfl,
   (C8_scanner_range_amended 0 none none []).2.2.2 300 ⟨25, -2⟩ (by norm_num),
   (C8_scanner_range_amended 0 none none []).1⟩

/-- C9 counterexample: a buffer holding exactly one snapshot at time 0,
rendered at 0.04 s.  The claim says the snapshot is held (a value is
returned), but `interpolate_at` returns `none` for any buffer with fewer
than two snapshots. -/
theorem C9_counterexample :
    interpolate_at [⟨0, ⟨0,0,0⟩, (0,0,0,1)⟩] (4/100) = none ∧
    ¬ ∃ s, interpolate_at [⟨0, ⟨0,0,0⟩, (0,0,0,1)⟩] (4/100) = some s := by
  refine ⟨rfl, ?_⟩
  rintro ⟨s, hs⟩
  rw [show interpolate_at [⟨0, ⟨0,0,0⟩, (0,0,0,1)⟩] (4/100) = none from rfl] at hs
  exact Option.noConfusion hs

/-- C9 amended: provided the buffer holds at least two snapshots, when the
bracketing scan finds only a `before` snapshot the buffer holds it while
`render_time − before.t < 0.05 s` and returns nothing once the gap reaches
0.05 s; a buffer with fewer than two snapshots (in particular exactly one)
always yields nothing. -/
theorem C9_extrapolation_amended :
    ∀ (snapshots : List EntitySnapshot) (render_time : ℚ) (b : EntitySnapshot),
      2 ≤ snapshots.length →
      find_bracketing render_time snapshots = (some b, none) →
      (render_time - b.server_time < MAX_EXTRAPOLATION_S →
        interpolate_at snapshots render_time = some b) ∧
      (MAX_EXTRAPOLATION_S ≤ render_time - b.server_time →
        interpolate_at snapshots render_time = none) := by
  intro snapshots render_time b hlen hfb
  have hnotlt : ¬ snapshots.length < 2 := not_lt.mpr hlen
  constructor
  · intro hgap
    unfold interpolate_at
    rw [if_neg hnotlt, hfb]
    exact if_pos hgap
  · intro hgap
    unfold interpolate_at
    rw [if_neg hnotlt, hfb]
    exact if_neg (not_lt.mpr hgap)

/-- Closed witness for C9: with two snapshots at t = 0 and t = 1, rendering
at 1.04 returns the held later snapshot and rendering at 1.1 returns
nothing. -/
theorem C9_witness :
    interpolate_at [⟨0, ⟨0,0,0⟩, (0,0,0,1)⟩, ⟨1, ⟨5,0,0⟩, (0,0,0,1)⟩] (1 + 4/100) =
      some ⟨1, ⟨5,0,0⟩, (0,0,0,1)⟩ ∧
    interpolate_at [⟨0, ⟨0,0,0⟩, (0,0,0,1)⟩, ⟨1, ⟨5,0,0⟩, (0,0,0,1)⟩] (1 + 1/10) =
      none :=
  ⟨(C9_extrapolation_amended [⟨0, ⟨0,0,0⟩, (0,0,0,1)⟩, ⟨1, ⟨5,0,0⟩, (0,0,0,1)⟩]
      (1 + 4/100) ⟨1, ⟨5,0,0⟩, (0,0,0,1)⟩ (by decide) (by norm_num [find_bracketing])).1
      (by norm_num [MAX_EXTRAPOLATION_S]),
   (C9_extrapolation_amended [⟨0, ⟨0,0,0⟩, (0,0,0,1)⟩, ⟨1, ⟨5,0,0⟩, (0,0,0,1)⟩]
      (1 + 1/10) ⟨1, ⟨5,0,0⟩, (0,0,0,1)⟩ (by decide) (by norm_num [find_bracketing])).2
      (by norm_num [MAX_EXTRAPOLATION_S])⟩

/-- Case analysis for one update through the filter loop body: it is
passed through verbatim when removed, passed through verbatim when owned,
and otherwise anything delivered for it is a redaction — same entity id,
not removed, empty component list, and only whitelisted property keys. -/
theorem mem_filter_update_for_client
    (updates : List WorldDeltaEntity) (anchors : List (Vec3 × ℚ))
    (player_entity_id : String) (ctx : VisibilityContext)
    (a u : WorldDeltaEntity)
    (hu : u ∈ filter_update_for_client updates anchors player_entity_id ctx a) :
    (a.removed = true ∧ u = a) ∨
    (a.removed = false ∧
      ownership_lookup updates player_entity_id a.entity_id = true ∧ u = a) ∨
    (a.removed = false ∧
      ownership_lookup updates player_entity_id a.entity_id = false ∧
      u.entity_id = a.entity_id ∧ u.removed = false ∧ u.components = [] ∧
      ∀ k ∈ u.properties.objKeys, is_property_always_visible k = true) := by
  unfold filter_update_for_client at hu
  by_cases hrem : a.removed = true
  · rw [if_pos hrem] at hu
    exact Or.inl ⟨hrem, List.mem_singleton.mp hu⟩
  · have hrem' : a.removed = false := by
      revert hrem
      cases a.removed <;> simp
    rw [if_neg hrem] at hu
    dsimp only at hu
    by_cases howned : ownership_lookup updates player_entity_id a.entity_id = true
    · rw [howned] at hu
      simp only [if_true] at hu
      split at hu
      · exact absurd hu (List.not_mem_nil u)
      · split at hu
        · exact absurd hu (List.not_mem_nil u)
        · exact Or.inr (Or.inl ⟨hrem', howned, List.mem_singleton.mp hu⟩)
    · have howned' : ownership_lookup updates player_entity_id a.entity_id = false := by
        revert howned
        cases ownership_lookup updates player_entity_id a.entity_id <;> simp
      rw [howned'] at hu
      simp only [if_false, Bool.false_eq_true] at hu
      split at hu
      · exact absurd hu (List.not_mem_nil u)
      · split at hu
        · exact absurd hu (List.not_mem_nil u)
        · split at hu
          · refine Or.inr (Or.inr ⟨hrem', howned', ?_⟩)
            have hu' := List.mem_singleton.mp hu
            subst hu'
            refine ⟨rfl, hrem', rfl, ?_⟩
            intro k hk
            cases hprops : a.properties with
            | obj fields =>
              rw [hprops] at hk
              simp only [Json.objKeys] at hk
              obtain ⟨p, hp, hpk⟩ := List.mem_map.mp hk
              have := (List.mem_filter.mp hp).2
              rwa [hpk] at this
            | null => rw [hprops] at hk; simp [Json.objKeys] at hk
            | bool b => rw [hprops] at hk; simp [Json.objKeys] at hk
            | num q => rw [hprops] at hk; simp [Json.objKeys] at hk
            | str s => rw [hprops] at hk; simp [Json.objKeys] at hk
            | arr elems => rw [hprops] at hk; simp [Json.objKeys] at hk
          · exact absurd hu (List.not_mem_nil u)

/-- C2: in a filtered delta for an authenticated context, every delivered
non-removed update for an entity the ownership map marks as owned by the
bound player is an input update kept verbatim (all properties and
components unchanged), and every delivered non-removed update for a
non-owned entity carries only property keys from the always-visible
whitelist and an emptied component list. -/
theorem C2_filter_ownership_redaction :
    ∀ (world : WorldStateDelta) (player_entity_id : String) (ctx : VisibilityContext)
      (u : WorldDeltaEntity),
      u ∈ (filter_world_for_client world player_entity_id ctx).updates →
      u.removed = false →
      (ownership_lookup world.updates player_entity_id u.entity_id = true →
        u ∈ world.updates) ∧
      (ownership_lookup world.updates player_entity_id u.entity_id = false →
        (∀ k ∈ u.properties.objKeys, is_property_always_visible k = true) ∧
        u.components = []) := by
  intro world player_entity_id ctx u hu hnotrem
  obtain ⟨a, ha, hfa⟩ := List.mem_flatMap.mp hu
  rcases mem_filter_update_for_client world.updates _ player_entity_id ctx a u hfa with
    h1 | h2 | h3
  · rw [h1.2, h1.1] at hnotrem
    exact absurd hnotrem (by simp)
  · constructor
    · intro _
      rw [h2.2.2]
      exact ha
    · intro hfalse
      rw [h2.2.2] at hfalse
      rw [h2.2.1] at hfalse
      exact absurd hfalse (by simp)
  · constructor
    · intro htrue
      rw [h3.2.2.1, h3.2.1] at htrue
      exact absurd htrue (by simp)
    · intro _
      exact ⟨h3.2.2.2.2.2, h3.2.2.2.2.1⟩

/-- Alice's ship, owned via an `owner_id` component, carrying a sensitive
`health` property. -/
def alice_ship : WorldDeltaEntity :=
  { entity_id := "ship:1"
    labels := ["Entity"]
    properties := .obj [("entity_id", .str "ship:1"),
      ("position_m", .arr [.num 0, .num 0, .num 0]), ("health", .num 1000)]
    components := [⟨"ship:1:owner_id", "owner_id", .str "player:alice"⟩]
    removed := false }

/-- Bob's ship, near Alice, not owned by Alice. -/
def bob_ship : WorldDeltaEntity :=
  { entity_id := "ship:2"
    labels := ["Entity"]
    properties := .obj [("entity_id", .str "ship:2"),
      ("position_m", .arr [.num 10, .num 0, .num 0]), ("health", .num 800)]
    components := [⟨"ship:2:owner_id", "owner_id", .str "player:bob"⟩]
    removed := false }

/-- The redaction of `bob_ship` that Alice's session receives. -/
def redacted_bob_ship : WorldDeltaEntity :=
  { entity_id := "ship:2"
    labels := ["Entity"]
    properties := .obj [("entity_id", .str "ship:2"),
      ("position_m", .arr [.num 10, .num 0, .num 0])]
    components := []
    removed := false }

/-- Alice's authenticated context with her focus at the origin. -/
def ctx_alice : VisibilityContext :=
  VisibilityContext.authenticated "player:alice" (some ⟨0, 0, 0⟩)

/-- Closed witness for C2 on a two-ship world. -/
theorem C2_witness :
    alice_ship ∈ ({ updates := [alice_ship, bob_ship] } : WorldStateDelta).updates ∧
    (∀ k ∈ redacted_bob_ship.properties.objKeys, is_property_always_visible k = true) ∧
    redacted_bob_ship.components = [] := by
  have hout : (filter_world_for_client ⟨[alice_ship, bob_ship]⟩ "player:alice" ctx_alice).updates
      = [alice_ship, redacted_bob_ship] := by
    simp [filter_world_for_client, filter_update_for_client, authorization_anchors,
      ownership_lookup, entity_is_owned_by, owner_id_from_component_properties,
      extract_position, scanner_extension_m, Json.getField, Json.asF64, Json.asStr,
      Json.objNonempty, is_property_always_visible, ALWAYS_VISIBLE_PROPERTIES,
      Vec3.distLe, Vec3.len2, Vec3.sub_def, VisibilityContext.authenticated,
      DEFAULT_VIEW_RANGE_M, alice_ship, bob_ship, redacted_bob_ship, ctx_alice,
      List.find?, List.filter, List.any, Option.map, Option.bind, Option.getD]
    norm_num
  have hmem1 : alice_ship ∈ (filter_world_for_client ⟨[alice_ship, bob_ship]⟩
      "player:alice" ctx_alice).updates := by
    rw [hout]
    simp
  have hmem2 : redacted_bob_ship ∈ (filter_world_for_client ⟨[alice_ship, bob_ship]⟩
      "player:alice" ctx_alice).updates := by
    rw [hout]
    simp
  have hown1 : ownership_lookup [alice_ship, bob_ship] "player:alice"
      alice_ship.entity_id = true := by
    decide
  have hown2 : ownership_lookup [alice_ship, bob_ship] "player:alice"
      redacted_bob_ship.entity_id = false := by
    decide
  exact ⟨(C2_filter_ownership_redaction ⟨[alice_ship, bob_ship]⟩ "player:alice" ctx_alice
      alice_ship hmem1 rfl).1 hown1,
    (C2_filter_ownership_redaction ⟨[alice_ship, bob_ship]⟩ "player:alice" ctx_alice
      redacted_bob_ship hmem2 rfl).2 hown2⟩

/-- Filtering a mapped list of synthetic removal updates by entity id
counts occurrences of that id. -/
theorem synthetic_filter_length (l : List String) (id : String) :
    ((l.map synthetic_removed_update).filter (fun v => v.entity_id == id)).length =
      l.count id := by
  induction l with
  | nil => simp
  | cons a t ih =>
    by_cases h : a = id
    · subst h
      simp [synthetic_removed_update, List.count_cons, ih]
    · simp [synthetic_removed_update, List.count_cons, ih, h]

/-- C3: per session and broadcast, with current_visible the ids of
non-removed updates in the session's filtered delta and previous_visible
the stored history (a set, so duplicate-free): the delivered frame is the
filtered delta plus appended synthetic updates, all `removed=true`, with
exactly one appended update per id in previous_visible \ current_visible
and none for any other id; the stored history is replaced by
current_visible. -/
theorem C3_broadcast_leave_diffing :
    ∀ (filtered_world : WorldStateDelta) (previous_visible : List String),
      previous_visible.Nodup →
      ∃ appended,
        (broadcast_frame_for_session filtered_world previous_visible).1.updates =
          filtered_world.updates ++ appended ∧
        (∀ v ∈ appended, v.removed = true) ∧
        (∀ id, (appended.filter (fun v => v.entity_id == id)).length =
          if id ∈ previous_visible ∧
              id ∉ (broadcast_frame_for_session filtered_world previous_visible).2
            then 1 else 0) ∧
        (∀ id, id ∈ (broadcast_frame_for_session filtered_world previous_visible).2 ↔
          ∃ u ∈ filtered_world.updates, u.removed = false ∧ u.entity_id = id) := by
  intro filtered_world previous_visible hnd
  classical
  set current := ((filtered_world.updates.filter (fun u => !u.removed)).map
    (fun u => u.entity_id)).dedup with hcur
  have h2 : (broadcast_frame_for_session filtered_world previous_visible).2 = current := rfl
  refine ⟨(previous_visible.filter (fun id => !current.contains id)).map
      synthetic_removed_update, rfl, ?_, ?_, ?_⟩
  · intro v hv
    obtain ⟨id, _, hid⟩ := List.mem_map.mp hv
    rw [← hid]
    rfl
  · intro id
    rw [synthetic_filter_length, h2]
    by_cases hmem : id ∈ previous_visible ∧ id ∉ current
    · rw [if_pos hmem]
      apply List.count_eq_one_of_mem (hnd.filter _)
      exact List.mem_filter.mpr ⟨hmem.1, by simp [hmem.2]⟩
    · rw [if_neg hmem]
      rw [List.count_eq_zero]
      intro hin
      have hf := List.mem_filter.mp hin
      exact hmem ⟨hf.1, by simpa using hf.2⟩
  · intro id
    rw [h2, hcur]
    simp only [List.mem_dedup, List.mem_map, List.mem_filter, Bool.not_eq_true']
    constructor
    · rintro ⟨u, ⟨hu, hrem⟩, hid⟩
      exact ⟨u, hu, hrem, hid⟩
    · rintro ⟨u, hu, hrem, hid⟩
      exact ⟨u, ⟨hu, hrem⟩, hid⟩

/-- Closed witness for C3: one delivered non-removed update for ship:1
against a history of ship:1 and ship:2. -/
theorem C3_witness :
    ∃ appended,
      (broadcast_frame_for_session ⟨[sample_pending_update]⟩ ["ship:1", "ship:2"]).1.updates =
        ({ updates := [sample_pending_update] } : WorldStateDelta).updates ++ appended ∧
      (∀ v ∈ appended, v.removed = true) ∧
      (∀ id, (appended.filter (fun v => v.entity_id == id)).length =
        if id ∈ ["ship:1", "ship:2"] ∧
            id ∉ (broadcast_frame_for_session ⟨[sample_pending_update]⟩ ["ship:1", "ship:2"]).2
          then 1 else 0) ∧
      (∀ id, id ∈ (broadcast_frame_for_session ⟨[sample_pending_update]⟩ ["ship:1", "ship:2"]).2 ↔
        ∃ u ∈ ({ updates := [sample_pending_update] } : WorldStateDelta).updates,
          u.removed = false ∧ u.entity_id = id) :=
  C3_broadcast_leave_diffing ⟨[sample_pending_update]⟩ ["ship:1", "ship:2"] (by decide)

/-- Selects successful results that report a bootstrap application for the
given account. -/
def is_applied_for (account : String) :
    Except BootstrapError BootstrapHandleResult → Bool
  | .ok res => res.account_id == account && res.applied
  | .error _ => false

/-- Across any sequence of payloads, the number of results reporting an
application for a fixed account is at most one, and zero when the store
already holds a dedup record for it. -/
theorem handle_payload_all_applied_bound (account : String) :
    ∀ (messages : List BootstrapWireMessage) (store : InMemoryBootstrapStore),
      ((handle_payload_all store messages).1.filter (is_applied_for account)).length ≤
        if store.applied_accounts.contains account then 0 else 1 := by
  intro messages
  induction messages with
  | nil =>
    intro store
    by_cases h : store.applied_accounts.contains account <;>
      simp [handle_payload_all, h]
  | cons m rest ih =>
    intro store
    cases htf : bootstrap_command_try_from m with
    | error e =>
      have hstep : handle_payload store m = (.error e, store) := by
        simp [handle_payload, htf]
      simpa [handle_payload_all, hstep, is_applied_for] using ih store
    | ok cmd =>
      by_cases happ : store.applied_accounts.contains cmd.account_id = true
      · have hmem : cmd.account_id ∈ store.applied_accounts := by simpa using happ
        have hstep : handle_payload store m =
            (.ok { account_id := cmd.account_id, player_entity_id := cmd.player_entity_id,
                   applied := false },
             { applied_accounts := store.applied_accounts
               events := store.events ++
                 [{ account_id := cmd.account_id, player_entity_id := cmd.player_entity_id,
                    applied := false }] }) := by
          simp [handle_payload, htf, apply_bootstrap_if_absent, hmem]
        have htail := ih { applied_accounts := store.applied_accounts
                           events := store.events ++
                             [{ account_id := cmd.account_id,
                                player_entity_id := cmd.player_entity_id,
                                applied := false }] }
        simpa [handle_payload_all, hstep, is_applied_for] using htail
      · have happ' : store.applied_accounts.contains cmd.account_id = false := by
          revert happ
          cases store.applied_accounts.contains cmd.account_id <;> simp
        have hnotmem : cmd.account_id ∉ store.applied_accounts := by simpa using happ'
        have hstep : handle_payload store m =
            (.ok { account_id := cmd.account_id, player_entity_id := cmd.player_entity_id,
                   applied := true },
             { applied_accounts := cmd.account_id :: store.applied_accounts
               events := store.events ++
                 [{ account_id := cmd.account_id, player_entity_id := cmd.player_entity_id,
                    applied := true }] }) := by
          simp [handle_payload, htf, apply_bootstrap_if_absent, hnotmem]
        have htail := ih { applied_accounts := cmd.account_id :: store.applied_accounts
                           events := store.events ++
                             [{ account_id := cmd.account_id,
                                player_entity_id := cmd.player_entity_id,
                                applied := true }] }
        by_cases hacc : cmd.account_id = account
        · subst hacc
          have hcons : (cmd.account_id :: store.applied_accounts).contains cmd.account_id = true := by
            simp [List.contains_cons]
          rw [hcons] at htail
          have hzero :
              ((handle_payload_all
                { applied_accounts := cmd.account_id :: store.applied_accounts
                  events := store.events ++
                    [{ account_id := cmd.account_id,
                       player_entity_id := cmd.player_entity_id,
                       applied := true }] } rest).1.filter (is_applied_for cmd.account_id)).length = 0 :=
            Nat.le_zero.mp htail
          simp [handle_payload_all, hstep, is_applied_for, List.filter_cons, hzero, hnotmem]
        · have hne : (cmd.account_id == account) = false := by
            simp [hacc]
          have hne2 : (account == cmd.account_id) = false := by
            simp
            exact fun h => hacc h.symm
          have hmono : (cmd.account_id :: store.applied_accounts).contains account =
              store.applied_accounts.contains account := by
            simp [List.contains_cons, hne2]
            exact fun h => absurd h.symm hacc
          rw [hmono] at htail
          simpa [handle_payload_all, hstep, is_applied_for, List.filter_cons, hne] using htail

/-- C5: a valid bootstrap_player payload processed twice from a fresh
store yields applied=true then applied=false and leaves exactly one dedup
record for the account, and across any sequence of payloads at most one
result reports an application for any fixed account. -/
theorem C5_bootstrap_idempotent :
    (∀ (message : BootstrapWireMessage) (command : BootstrapCommand),
      bootstrap_command_try_from message = .ok command →
      (handle_payload InMemoryBootstrapStore.empty message).1 =
        .ok { account_id := command.account_id,
              player_entity_id := command.player_entity_id, applied := true } ∧
      (handle_payload (handle_payload InMemoryBootstrapStore.empty message).2 message).1 =
        .ok { account_id := command.account_id,
              player_entity_id := command.player_entity_id, applied := false } ∧
      (handle_payload (handle_payload InMemoryBootstrapStore.empty message).2
          message).2.applied_accounts = [command.account_id]) ∧
    (∀ (messages : List BootstrapWireMessage) (account : String),
      ((handle_payload_all InMemoryBootstrapStore.empty messages).1.filter
        (is_applied_for account)).length ≤ 1) := by
  constructor
  · intro message command htf
    refine ⟨?_, ?_, ?_⟩ <;>
      simp [handle_payload, htf, apply_bootstrap_if_absent, InMemoryBootstrapStore.empty,
        List.contains_cons]
  · intro messages account
    have h := handle_payload_all_applied_bound account messages InMemoryBootstrapStore.empty
    simpa [InMemoryBootstrapStore.empty] using h

/-- A canonical demo account UUID. -/
def demo_uuid : String := "00000000-0000-4000-8000-000000000000"

/-- The valid bootstrap wire message for the demo account. -/
def demo_bootstrap_message : BootstrapWireMessage :=
  { kind := "bootstrap_player", account_id := demo_uuid,
    player_entity_id := "player:" ++ demo_uuid }

/-- Closed witness for C5 with a concrete canonical payload. -/
theorem C5_witness :
    (handle_payload InMemoryBootstrapStore.empty demo_bootstrap_message).1 =
      .ok { account_id := demo_uuid, player_entity_id := "player:" ++ demo_uuid,
            applied := true } ∧
    (handle_payload (handle_payload InMemoryBootstrapStore.empty demo_bootstrap_message).2
        demo_bootstrap_message).1 =
      .ok { account_id := demo_uuid, player_entity_id := "player:" ++ demo_uuid,
            applied := false } ∧
    (handle_payload (handle_payload InMemoryBootstrapStore.empty demo_bootstrap_message).2
        demo_bootstrap_message).2.applied_accounts = [demo_uuid] ∧
    ((handle_payload_all InMemoryBootstrapStore.empty
        [demo_bootstrap_message, demo_bootstrap_message]).1.filter
      (is_applied_for demo_uuid)).length ≤ 1 := by
  have htf : bootstrap_command_try_from demo_bootstrap_message =
      .ok { account_id := demo_uuid, player_entity_id := "player:" ++ demo_uuid } := by
    rfl
  obtain ⟨h1, h2, h3⟩ := C5_bootstrap_idempotent.1 demo_bootstrap_message
    { account_id := demo_uuid, player_entity_id := "player:" ++ demo_uuid } htf
  exact ⟨h1, h2, h3,
    C5_bootstrap_idempotent.2 [demo_bootstrap_message, demo_bootstrap_message] demo_uuid⟩

/-- C7 counterexample: a dirty root with no mass components, no inventory,
no children and no modules.  The sum base + cargo + module is 0, the code
floors the total at 1.0, and the claim's identity
|total − (base + cargo + module)| ≤ 1e-4 fails. -/
theorem C7_counterexample :
    (recompute_total_mass_for_root ⟨0, 0, none, none, none, 0, 0, 0, true⟩ [] [] [] 0).total_mass = 1 ∧
    (recompute_total_mass_for_root ⟨0, 0, none, none, none, 0, 0, 0, true⟩ [] [] [] 0).cargo_mass = 0 ∧
    (recompute_total_mass_for_root ⟨0, 0, none, none, none, 0, 0, 0, true⟩ [] [] [] 0).module_mass = 0 ∧
    ¬ (|(recompute_total_mass_for_root ⟨0, 0, none, none, none, 0, 0, 0, true⟩ [] [] [] 0).total_mass -
        ((0 : ℚ) +
          (recompute_total_mass_for_root ⟨0, 0, none, none, none, 0, 0, 0, true⟩ [] [] [] 0).cargo_mass +
          (recompute_total_mass_for_root ⟨0, 0, none, none, none, 0, 0, 0, true⟩ [] [] [] 0).module_mass)| ≤
        1/10000) := by
  have hout : recompute_total_mass_for_root ⟨0, 0, none, none, none, 0, 0, 0, true⟩ [] [] [] 0 =
      ⟨0, 0, none, none, none, 0, 0, 1, true⟩ := by
    norm_num [recompute_total_mass_for_root, inventory_mass_kg, child_inventory_tree_mass,
      module_tree_mass, tree_mass_loop, children_by_parent_entity,
      module_children_by_parent_guid]
  rw [hout]
  norm_num

/-- C7 amended: after the recomputation runs on a dirty root, cargo mass is
the root's own inventory mass plus the inventory mass over the
scene-hierarchy traversal, module mass is the sum over the MountedOn
subtree traversal, and the total is `max(base + cargo + module, 1.0)` — so
total ≥ 1.0 always holds, while the identity
|total − (base + cargo + module)| ≤ 1e-4 holds exactly when
base + cargo + module ≥ 1.0 (the counterexample shows it fails below the
floor). -/
theorem C7_mass_recompute_amended :
    ∀ (root : MassRoot) (inventories : List (ℕ × Option Inventory))
      (child_of : List (ℕ × ℕ)) (modules : List ModuleRow) (fuel : ℕ),
      root.mass_dirty = true →
      (recompute_total_mass_for_root root inventories child_of modules fuel).cargo_mass =
        inventory_mass_kg root.inventory +
          child_inventory_tree_mass root.entity (inventory_mass_by_entity inventories)
            (children_by_parent_entity child_of) fuel ∧
      (recompute_total_mass_for_root root inventories child_of modules fuel).module_mass =
        module_tree_mass root.guid (module_mass_by_guid modules)
          (module_children_by_parent_guid modules) fuel ∧
      (recompute_total_mass_for_root root inventories child_of modules fuel).total_mass =
        max ((root.base_mass.or root.mass).getD 0 +
          (recompute_total_mass_for_root root inventories child_of modules fuel).cargo_mass +
          (recompute_total_mass_for_root root inventories child_of modules fuel).module_mass) 1 ∧
      1 ≤ (recompute_total_mass_for_root root inventories child_of modules fuel).total_mass ∧
      (1 ≤ (root.base_mass.or root.mass).getD 0 +
          (recompute_total_mass_for_root root inventories child_of modules fuel).cargo_mass +
          (recompute_total_mass_for_root root inventories child_of modules fuel).module_mass →
        |(recompute_total_mass_for_root root inventories child_of modules fuel).total_mass -
          ((root.base_mass.or root.mass).getD 0 +
            (recompute_total_mass_for_root root inventories child_of modules fuel).cargo_mass +
            (recompute_total_mass_for_root root inventories child_of modules fuel).module_mass)| ≤
          1/10000) := by
  intro root inventories child_of modules fuel hdirty
  have hrun : recompute_total_mass_for_root root inventories child_of modules fuel =
      { root with
        cargo_mass := inventory_mass_kg root.inventory +
          child_inventory_tree_mass root.entity (inventory_mass_by_entity inventories)
            (children_by_parent_entity child_of) fuel
        module_mass := module_tree_mass root.guid (module_mass_by_guid modules)
          (module_children_by_parent_guid modules) fuel
        total_mass := max ((root.base_mass.or root.mass).getD 0 +
          (inventory_mass_kg root.inventory +
            child_inventory_tree_mass root.entity (inventory_mass_by_entity inventories)
              (children_by_parent_entity child_of) fuel) +
          module_tree_mass root.guid (module_mass_by_guid modules)
            (module_children_by_parent_guid modules) fuel) 1 } := by
    unfold recompute_total_mass_for_root
    rw [hdirty]
    rfl
  rw [hrun]
  refine ⟨rfl, rfl, rfl, le_max_right _ _, ?_⟩
  intro hfloor
  rw [max_eq_left hfloor]
  simp

/-- Closed witness for C7 at a concrete input above the mass floor. -/
theorem C7_witness :
    1 ≤ (recompute_total_mass_for_root ⟨0, 0, none, some 5, none, 0, 0, 0, true⟩ [] [] [] 0).total_mass ∧
    |(recompute_total_mass_for_root ⟨0, 0, none, some 5, none, 0, 0, 0, true⟩ [] [] [] 0).total_mass -
      (((some (5 : ℚ)).or none).getD 0 +
        (recompute_total_mass_for_root ⟨0, 0, none, some 5, none, 0, 0, 0, true⟩ [] [] [] 0).cargo_mass +
        (recompute_total_mass_for_root ⟨0, 0, none, some 5, none, 0, 0, 0, true⟩ [] [] [] 0).module_mass)| ≤
      1/10000 := by
  have h := C7_mass_recompute_amended ⟨0, 0, none, some 5, none, 0, 0, 0, true⟩ [] [] [] 0 rfl
  refine ⟨h.2.2.2.1, h.2.2.2.2 ?_⟩
  rw [h.1, h.2.1]
  norm_num [inventory_mass_kg, child_inventory_tree_mass, module_tree_mass, tree_mass_loop,
    children_by_parent_entity, module_children_by_parent_guid]
